import Mathlib

/-!
Verification of the repeaterbook data-acquisition pipeline against its
natural-language specification.

The definitions below are a shallow embedding of `src/repeaterbook/services.py`
(and, where noted, of parts the repository only exercises through tests).
Python exceptions are modelled by `Except PyError`; decoded JSON payloads by
explicit inductive types; machine state (the on-disk cache) by explicit state
passing.
-/

/-- Decoded JSON value for response envelopes (`json.loads` output).  Numeric
values are modelled as integers (the envelope's numeric field `count` is an
integer); boolean literals are not emitted by the endpoints and are omitted. -/
inductive JsonVal where
  | obj (fields : List (String × JsonVal))
  | arr (elems : List JsonVal)
  | str (s : String)
  | num (n : Int)
  | null
  deriving Repr

/-- Kinds of exception the embedded code can raise.  `validationError`,
`apiError` and `cacheError` mirror `RepeaterBookValidationError`,
`RepeaterBookAPIError` and `RepeaterBookCacheError` from
`repeaterbook/exceptions.py`; `keyError`, `valueError` and `typeError` mirror
the Python builtins of the same name; `osError` mirrors `OSError` raised by
filesystem operations; `transportError` mirrors
`aiohttp.ClientResponseError` from `response.raise_for_status()`. -/
inductive PyError where
  | validationError (msg : String)
  | apiError (msg : JsonVal)
  | cacheError (msg : String)
  | keyError (key : String)
  | valueError (msg : String)
  | typeError (msg : String)
  | osError (msg : String)
  | transportError (status : Int)
  deriving Repr

/-- Value of one field of a raw per-record object.  Per the `RepeaterJson`
`TypedDict` in `repeaterbook/models.py`, record fields are strings, integers
or null. -/
inductive RVal where
  | s (v : String)
  | i (v : Int)
  | null
  deriving Repr, DecidableEq

/-- A raw record object: a JSON key-value mapping (`RepeaterJSON` in the
source).  Keys are unique in a decoded JSON object; lookup takes the first
binding. -/
abbrev RepeaterJSON := List (String × RVal)

/-- Python `j.get(key)`: `None` when the key is absent. -/
def jget (j : RepeaterJSON) (key : String) : Option RVal :=
  match j.find? (fun kv => kv.1 = key) with
  | some kv => some kv.2
  | none => none

/-- The enum `Use` from `repeaterbook/models.py`. -/
inductive Use where
  | OPEN
  | PRIVATE
  | CLOSED
  deriving Repr, DecidableEq

/-- The enum `Status` from `repeaterbook/models.py`. -/
inductive Status where
  | OFF_AIR
  | ON_AIR
  | UNKNOWN
  deriving Repr, DecidableEq

/-- The lookup table `BOOL_MAP` from `services.py`: `"Yes"/"No"` and `1/0`
map to booleans; any other value is absent from the table. -/
def BOOL_MAP : RVal → Option Bool
  | .s "Yes" => some true
  | .s "No" => some false
  | .i 1 => some true
  | .i 0 => some false
  | _ => none

/-- The lookup table `USE_MAP` from `services.py` (the empty string is an
explicit key mapping to `OPEN`). -/
def USE_MAP : String → Option Use
  | "OPEN" => some Use.OPEN
  | "PRIVATE" => some Use.PRIVATE
  | "CLOSED" => some Use.CLOSED
  | "" => some Use.OPEN
  | _ => none

/-- The lookup table `STATUS_MAP` from `services.py`. -/
def STATUS_MAP : String → Option Status
  | "Off-air" => some Status.OFF_AIR
  | "On-air" => some Status.ON_AIR
  | "Unknown" => some Status.UNKNOWN
  | _ => none

/-- Python dates are proleptic-Gregorian year/month/day triples. -/
structure PyDate where
  year : Nat
  month : Nat
  day : Nat
  deriving Repr, DecidableEq

/-- Python `date.min`, the minimum representable date `0001-01-01`. -/
def dateMin : PyDate := ⟨1, 1, 1⟩

/-- Gregorian leap-year test. -/
def isLeapYear (y : Nat) : Bool :=
  y % 4 = 0 && (y % 100 ≠ 0 || y % 400 = 0)

/-- Number of days in a month of a given year. -/
def daysInMonth (y m : Nat) : Nat :=
  if m = 2 then (if isLeapYear y then 29 else 28)
  else if m = 4 || m = 6 || m = 9 || m = 11 then 30
  else 31

/-- Numeric value of a list of ASCII digits. -/
def natOfDigits (cs : List Char) : Nat :=
  cs.foldl (fun acc c => acc * 10 + (c.toNat - 48)) 0

/-- Embedding of `date.fromisoformat` restricted to the dashed
`YYYY-MM-DD` form the endpoints emit (the source docstring documents exactly
this format); returns `none` where Python raises `ValueError`. -/
def fromisoformat (s : String) : Option PyDate :=
  match s.toList with
  | [y1, y2, y3, y4, '-', m1, m2, '-', d1, d2] =>
    if [y1, y2, y3, y4, m1, m2, d1, d2].all Char.isDigit then
      let y := natOfDigits [y1, y2, y3, y4]
      let m := natOfDigits [m1, m2]
      let d := natOfDigits [d1, d2]
      if 1 ≤ y && 1 ≤ m && m ≤ 12 && 1 ≤ d && d ≤ daysInMonth y m then
        some ⟨y, m, d⟩
      else none
    else none
  | _ => none

/-- The function `parse_date` from `services.py`: parse `YYYY-MM-DD`,
returning `date.min` on any parse failure. -/
def parse_date (s : String) : PyDate :=
  match fromisoformat s with
  | some d => d
  | none => dateMin

/-- Whether a string is accepted by the `Decimal` constructor (hence by the
model-validation of `Decimal`-typed fields): optional sign, then a finite
numeric literal `digits [. digits]` or `. digits` or `digits .`, optionally
followed by an exponent.  Special values (`NaN`, `Infinity`) and padding
whitespace, which the endpoints never emit, are omitted. -/
def isDecimalString (s : String) : Bool :=
  let stripSign : List Char → List Char := fun cs =>
    match cs with
    | c :: rest => if c = '+' || c = '-' then rest else cs
    | [] => []
  let cs := stripSign s.toList
  let mantExp := cs.span (fun c => !(c = 'e' || c = 'E'))
  let isMantissa : Bool :=
    match (mantExp.1).span Char.isDigit with
    | (ip, []) => !ip.isEmpty
    | (ip, '.' :: fp) => fp.all Char.isDigit && (!ip.isEmpty || !fp.isEmpty)
    | _ => false
  let isExponent : Bool :=
    match mantExp.2 with
    | [] => true
    | _ :: t =>
      let t' := stripSign t
      !t'.isEmpty && t'.all Char.isDigit
  isMantissa && isExponent

/-- The helper `s(key)` inside `json_to_model`: `j.get(key, "")`, mapping
`None` to `""` and stringifying any other value. -/
def sGet (j : RepeaterJSON) (key : String) : String :=
  match jget j key with
  | none => ""
  | some .null => ""
  | some (.s v) => v
  | some (.i v) => toString v

/-- The helper `b(key, default)` inside `json_to_model`:
`BOOL_MAP.get(j.get(key), default)`. -/
def bGet (j : RepeaterJSON) (key : String) (default : Bool) : Bool :=
  match jget j key with
  | none => default
  | some v => (BOOL_MAP v).getD default

/-- Recursive worker for `pyReplace`, structurally recursive on a fuel
bound (the input length suffices, as each step consumes at least one
character). -/
def replaceFuel (pat rep : List Char) : Nat → List Char → List Char
  | 0, cs => cs
  | _ + 1, [] => []
  | n + 1, c :: rest =>
    if pat.isPrefixOf (c :: rest) && !pat.isEmpty then
      rep ++ replaceFuel pat rep n (List.drop (pat.length - 1) rest)
    else c :: replaceFuel pat rep n rest

/-- Python `str.replace`: replace every non-overlapping occurrence of the
(non-empty) pattern, scanning left to right. -/
def pyReplace (s pat rep : String) : String :=
  String.mk (replaceFuel pat.toList rep.toList s.toList.length s.toList)

/-- Python truthiness conversion `s or None` on a string. -/
def orNone (s : String) : Option String :=
  if s = "" then none else some s

/-- Python `int(str)` on a string: optional sign then decimal digits;
`none` where Python raises `ValueError`.  (Underscore separators and
surrounding whitespace, which the endpoints never emit, are omitted.) -/
def pyIntOfString (s : String) : Option Int :=
  match s.toList with
  | '-' :: rest => if !rest.isEmpty && rest.all Char.isDigit
      then some (-(natOfDigits rest : Int)) else none
  | '+' :: rest => if !rest.isEmpty && rest.all Char.isDigit
      then some (natOfDigits rest : Int) else none
  | cs => if !cs.isEmpty && cs.all Char.isDigit
      then some (natOfDigits cs : Int) else none

/-- The expression `int(j.get("Rptr ID", 0) or 0)` from `json_to_model`:
falsy values (`None`, `0`, `""`) collapse to `0`; a non-numeric string makes
`int(...)` raise `ValueError`. -/
def rptrIdOf (v : RVal) : Except PyError Int :=
  match v with
  | .i n => .ok n
  | .null => .ok 0
  | .s str =>
    if str = "" then .ok 0
    else
      match pyIntOfString str with
      | some n => .ok n
      | none => .error (.valueError str)

/-- The canonical `Repeater` record from `repeaterbook/models.py`.
`Decimal`-typed fields are carried as their validated source strings. -/
structure Repeater where
  state_id : String
  repeater_id : Int
  frequency : String
  input_frequency : String
  pl_ctcss_uplink : Option String
  pl_ctcss_tsq_downlink : Option String
  location_nearest_city : String
  landmark : Option String
  region : Option String
  country : Option String
  county : Option String
  state : Option String
  latitude : String
  longitude : String
  precise : Bool
  callsign : Option String
  use_membership : Use
  operational_status : Status
  ares : Option String
  races : Option String
  skywarn : Option String
  canwarn : Option String
  allstar_node : Option String
  echolink_node : Option String
  irlp_node : Option String
  wires_node : Option String
  analog_capable : Bool
  fm_bandwidth : Option String
  dmr_capable : Bool
  dmr_color_code : Option String
  dmr_id : Option String
  d_star_capable : Bool
  nxdn_capable : Bool
  apco_p_25_capable : Bool
  p_25_nac : Option String
  m17_capable : Bool
  m17_can : Option String
  tetra_capable : Bool
  tetra_mcc : Option String
  tetra_mnc : Option String
  yaesu_system_fusion_capable : Bool
  notes : Option String
  last_update : PyDate
  deriving Repr, DecidableEq

/-- The `region=j.get("Region")` field: passed through raw, so absent and
null become `None`, a string stays as is, and an integer fails the model's
`str | None` validation. -/
def regionOf (v : Option RVal) : Except PyError (Option String) :=
  match v with
  | none => .ok none
  | some .null => .ok none
  | some (.s str) => .ok (some str)
  | some (.i _) => .error (.validationError "region")

/-- The function `json_to_model` from `services.py`: field-by-field mapping
of a raw record into a `Repeater`, followed by the `Repeater.model_validate`
check of the `Decimal`-typed fields.  Failure points, in source evaluation
order: `int(...)` on `Rptr ID` (ValueError), `BOOL_MAP[...]` on `Precise`
(KeyError), `STATUS_MAP[...]` on a non-empty unrecognised
`Operational Status` (KeyError), then validation of `frequency`,
`input_frequency`, `region`, `latitude`, `longitude` and `fm_bandwidth`. -/
def json_to_model (j : RepeaterJSON) : Except PyError Repeater := do
  let rid ← rptrIdOf ((jget j "Rptr ID").getD (.i 0))
  let precise ←
    match BOOL_MAP ((jget j "Precise").getD (.i 0)) with
    | some b => Except.ok b
    | none => Except.error (.keyError "Precise")
  let opStatus ←
    if sGet j "Operational Status" = "" then
      Except.ok Status.UNKNOWN
    else
      match STATUS_MAP (sGet j "Operational Status") with
      | some st => Except.ok st
      | none => Except.error (.keyError "Operational Status")
  if !isDecimalString (sGet j "Frequency") then
    throw (.validationError "frequency")
  else if !isDecimalString (sGet j "Input Freq") then
    throw (.validationError "input_frequency")
  else do
  let region ← regionOf (jget j "Region")
  if !isDecimalString (sGet j "Lat") then
    throw (.validationError "latitude")
  else if !isDecimalString (sGet j "Long") then
    throw (.validationError "longitude")
  else do
  let bw := orNone (pyReplace (sGet j "FM Bandwidth") " kHz" "")
  match bw with
  | some b =>
    if !isDecimalString b then throw (.validationError "fm_bandwidth")
    else pure ()
  | none => pure ()
  Except.ok {
    state_id := sGet j "State ID"
    repeater_id := rid
    frequency := sGet j "Frequency"
    input_frequency := sGet j "Input Freq"
    pl_ctcss_uplink := orNone (sGet j "PL")
    pl_ctcss_tsq_downlink := orNone (sGet j "TSQ")
    location_nearest_city := sGet j "Nearest City"
    landmark := orNone (sGet j "Landmark")
    region := region
    country := orNone (sGet j "Country")
    county := orNone (sGet j "County")
    state := orNone (sGet j "State")
    latitude := sGet j "Lat"
    longitude := sGet j "Long"
    precise := precise
    callsign := orNone (sGet j "Callsign")
    use_membership := (USE_MAP (sGet j "Use")).getD Use.OPEN
    operational_status := opStatus
    ares := orNone (sGet j "ARES")
    races := orNone (sGet j "RACES")
    skywarn := orNone (sGet j "SKYWARN")
    canwarn := orNone (sGet j "CANWARN")
    allstar_node := orNone (sGet j "AllStar Node")
    echolink_node := orNone (sGet j "EchoLink Node")
    irlp_node := orNone (sGet j "IRLP Node")
    wires_node := orNone (sGet j "Wires Node")
    analog_capable := bGet j "FM Analog" false
    fm_bandwidth := bw
    dmr_capable := bGet j "DMR" false
    dmr_color_code := orNone (sGet j "DMR Color Code")
    dmr_id := orNone (sGet j "DMR ID")
    d_star_capable := bGet j "D-Star" false
    nxdn_capable := bGet j "NXDN" false
    apco_p_25_capable := bGet j "APCO P-25" false
    p_25_nac := orNone (sGet j "P-25 NAC")
    m17_capable := bGet j "M17" false
    m17_can := orNone (sGet j "M17 CAN")
    tetra_capable := bGet j "Tetra" false
    tetra_mcc := orNone (sGet j "Tetra MCC")
    tetra_mnc := orNone (sGet j "Tetra MNC")
    yaesu_system_fusion_capable := bGet j "System Fusion" false
    notes := orNone (sGet j "Notes")
    last_update := parse_date (sGet j "Last Update")
  }

/-- The enum `Mode` and its `mode_map` JSON encoding from `urls_export`. -/
inductive Mode where
  | ANALOG
  | DMR
  | NXDN
  | P25
  | TETRA
  deriving Repr, DecidableEq

/-- The `mode_map` table inside `urls_export`. -/
def modeJSON : Mode → String
  | .ANALOG => "analog"
  | .DMR => "DMR"
  | .NXDN => "NXDN"
  | .P25 => "P25"
  | .TETRA => "tetra"

/-- The enum `Emergency` and its `emergency_map` encoding from
`urls_export`. -/
inductive Emergency where
  | ARES
  | RACES
  | SKYWARN
  | CANWARN
  deriving Repr, DecidableEq

/-- The `emergency_map` table inside `urls_export`. -/
def emergencyJSON : Emergency → String
  | .ARES => "ARES"
  | .RACES => "RACES"
  | .SKYWARN => "SKYWARN"
  | .CANWARN => "CANWARN"

/-- The enum `ServiceType` and its `type_map` encoding from `urls_export`. -/
inductive ServiceType where
  | GMRS
  deriving Repr, DecidableEq

/-- The `type_map` table inside `urls_export`. -/
def serviceTypeJSON : ServiceType → String
  | .GMRS => "GMRS"

/-- The `ExportQuery` value object.  Modelled from the spec: the class
itself lives in `repeaterbook/models.py`, whose copy under `src/` predates
it; its shape is fixed by §3 of the spec ("sets of callsigns, cities,
landmarks, countries, frequencies, modes, regions, state-identifiers,
counties, emergency-service tags, service types") and by the field accesses
in `urls_export`.  Countries are carried by name (the source accesses
`country.name`); sets are carried as duplicate-free-by-intent lists, and
only emptiness and membership of the sets are ever consumed. -/
structure ExportQuery where
  callsigns : List String := []
  cities : List String := []
  landmarks : List String := []
  countries : List String := []
  frequencies : List String := []
  modes : List Mode := []
  regions : List String := []
  state_ids : List String := []
  counties : List String := []
  emergency_services : List Emergency := []
  service_types : List ServiceType := []
  deriving Repr, DecidableEq

/-- The two remote endpoints: `export.php` (North America / region-A) and
`exportROW.php` (rest of world). -/
inductive Endpoint where
  | northAmerica
  | restOfWorld
  deriving Repr, DecidableEq

/-- A fully-formed export request URL: an endpoint plus its non-empty query
parameters, as built by `urls_export`. -/
structure ExportURL where
  endpoint : Endpoint
  params : List (String × List String)
  deriving Repr, DecidableEq

/-- The constant `NA_COUNTRIES` from `RepeaterBookAPI`: the fixed set of
countries served by the `export.php` endpoint. -/
def NA_COUNTRIES : List String := ["United States", "Canada", "Mexico"]

/-- The `ExportNorthAmericaQuery` dict built inside `urls_export`, after the
comprehension `{k: v for k, v in query_na.items() if v}` that drops empty
values. -/
def query_na_params (q : ExportQuery) : List (String × List String) :=
  [("callsign", q.callsigns),
   ("city", q.cities),
   ("landmark", q.landmarks),
   ("country", q.countries),
   ("frequency", q.frequencies),
   ("mode", q.modes.map modeJSON),
   ("state_id", q.state_ids),
   ("county", q.counties),
   ("emcomm", q.emergency_services.map emergencyJSON),
   ("stype", q.service_types.map serviceTypeJSON)].filter
    (fun kv => !kv.2.isEmpty)

/-- The `ExportWorldQuery` dict built inside `urls_export`, after the
comprehension that drops empty values. -/
def query_world_params (q : ExportQuery) : List (String × List String) :=
  [("callsign", q.callsigns),
   ("city", q.cities),
   ("landmark", q.landmarks),
   ("country", q.countries),
   ("frequency", q.frequencies),
   ("mode", q.modes.map modeJSON),
   ("region", q.regions)].filter
    (fun kv => !kv.2.isEmpty)

/-- The North-America export URL for a query
(`url_export_north_america % na_params`). -/
def naURL (q : ExportQuery) : ExportURL :=
  ⟨Endpoint.northAmerica, query_na_params q⟩

/-- The rest-of-world export URL for a query
(`url_export_rest_of_world % row_params`). -/
def rowURL (q : ExportQuery) : ExportURL :=
  ⟨Endpoint.restOfWorld, query_world_params q⟩

/-- The local `has_na_specific` of `urls_export`: whether any NA-only field
is used. -/
def has_na_specific (q : ExportQuery) : Bool :=
  !q.state_ids.isEmpty || !q.counties.isEmpty ||
  !q.emergency_services.isEmpty || !q.service_types.isEmpty

/-- The local `has_row_specific` of `urls_export`: whether the ROW-only
`region` field is used. -/
def has_row_specific (q : ExportQuery) : Bool :=
  !q.regions.isEmpty

/-- The local `has_na_countries` of `urls_export`: whether any requested
country is in the fixed North-America set. -/
def has_na_countries (q : ExportQuery) : Bool :=
  q.countries.any (fun c => NA_COUNTRIES.contains c)

/-- The local `has_row_countries` of `urls_export`: whether any requested
country is outside the fixed North-America set. -/
def has_row_countries (q : ExportQuery) : Bool :=
  q.countries.any (fun c => !NA_COUNTRIES.contains c)

/-- The endpoint-selection logic of `urls_export`: the two mutable flags
`query_na_endpoint` / `query_row_endpoint` start `True`, and the
`if` / `elif` chain of the source is rendered as a nested conditional
producing the final flag pair. -/
def routeFlags (q : ExportQuery) : Bool × Bool :=
  if has_na_specific q && !has_row_specific q then (true, false)
  else if has_row_specific q && !has_na_specific q then (false, true)
  else if !q.countries.isEmpty then (has_na_countries q, has_row_countries q)
  else (true, true)

/-- The method `urls_export` from `services.py`: smart endpoint routing.
The returned set is the list of the at-most-two URLs (which always differ
in their endpoint, so no deduplication can occur). -/
def urls_export (q : ExportQuery) : List ExportURL :=
  (if (routeFlags q).1 then [naURL q] else []) ++
  (if (routeFlags q).2 then [rowURL q] else [])

/-- Whether a routed URL set queries the North-America endpoint. -/
def queriesNA (q : ExportQuery) : Bool :=
  (urls_export q).any (fun u => u.endpoint = Endpoint.northAmerica)

/-- Whether a routed URL set queries the rest-of-world endpoint. -/
def queriesROW (q : ExportQuery) : Bool :=
  (urls_export q).any (fun u => u.endpoint = Endpoint.restOfWorld)

/-- The success-precondition of `json_to_model`: each of its failure points
(see `json_to_model`) is avoided.  Any record of the shape either endpoint
is documented to emit satisfies it. -/
def wellFormedRecord (j : RepeaterJSON) : Bool :=
  (match rptrIdOf ((jget j "Rptr ID").getD (.i 0)) with
   | .ok _ => true
   | .error _ => false) &&
  (BOOL_MAP ((jget j "Precise").getD (.i 0))).isSome &&
  (sGet j "Operational Status" = "" ||
    (STATUS_MAP (sGet j "Operational Status")).isSome) &&
  isDecimalString (sGet j "Frequency") &&
  isDecimalString (sGet j "Input Freq") &&
  (match jget j "Region" with
   | some (.i _) => false
   | _ => true) &&
  isDecimalString (sGet j "Lat") &&
  isDecimalString (sGet j "Long") &&
  (match orNone (pyReplace (sGet j "FM Bandwidth") " kHz" "") with
   | none => true
   | some b => isDecimalString b)

/-- The minimal valid payload used by the repository's own test suite
(`tests/test_services.py`). -/
def minimalPayload : RepeaterJSON :=
  [("State ID", .s "CA"), ("Rptr ID", .i 123), ("Frequency", .s "146.940000"),
   ("Input Freq", .s "146.340000"), ("PL", .s ""), ("TSQ", .s ""),
   ("Nearest City", .s "Los Angeles"), ("Landmark", .s ""),
   ("Country", .s "United States"), ("Lat", .s "34.0522"),
   ("Long", .s "-118.2437"), ("Precise", .i 1), ("Callsign", .s "W6ABC"),
   ("Use", .s "OPEN"), ("Operational Status", .s "On-air"),
   ("FM Analog", .s "Yes"), ("FM Bandwidth", .s "25 kHz"), ("DMR", .s "No"),
   ("Last Update", .s "2024-01-15")]

/-- A query that uses an NA-only field, the ROW-only field, and a non-NA
country simultaneously. -/
def c2Query : ExportQuery :=
  { state_ids := ["06"], regions := ["South America"], countries := ["Germany"] }

/-- State of the cache artifact for one URL during `fetch_json`: `none`
when the cache file does not exist, otherwise its last-modified time
(`st_mtime`, in seconds) and its contents. -/
structure CacheFS where
  cache : Option (Int × String)
  deriving Repr, DecidableEq

/-- The cache behaviour of `fetch_json` (`services.py` lines 51-106) as a
state transformer.  `now` is `time.time()`, `maxAge` is
`max_cache_age.total_seconds()`, `net` is the body the network would
deliver.  Returns (parsed result, new cache state, whether a network
request was made): a fresh artifact (`now - st_mtime < maxAge`) is returned
without network access; otherwise the body is fetched, installed as the
cache artifact with the current time, and returned. -/
def fetch_json_run (now maxAge : Int) (net : String) (fs : CacheFS) :
    String × CacheFS × Bool :=
  match fs.cache with
  | some (m, c) =>
    if now - m < maxAge then (c, fs, false)
    else (net, ⟨some (now, net)⟩, true)
  | none => (net, ⟨some (now, net)⟩, true)

/-- On-disk state of the cache-file path and the temporary-file path for
one URL. -/
structure DiskFS where
  cache : Option String
  temp : Option String
  deriving Repr, DecidableEq

/-- Successive filesystem states as `fetch_json` appends each streamed
chunk to the temporary file (`async for chunk ... await f.write(chunk)`);
`acc` is the temporary file's contents so far. -/
def chunkStates (fs : DiskFS) : String → List String → List DiskFS
  | _, [] => []
  | acc, c :: cs =>
    { fs with temp := some (acc ++ c) } :: chunkStates fs (acc ++ c) cs

/-- The sequence of filesystem states `fetch_json` moves through, starting
from `fs`: on a cache hit nothing is written; on a miss the temporary file
is created empty, grows by one chunk at a time, and is finally renamed onto
the cache path in a single step (`temp_file.rename(cache_file)`). -/
def fetch_json_trace (fresh : Bool) (chunks : List String) (fs : DiskFS) :
    List DiskFS :=
  if fresh then [fs]
  else
    [fs, { fs with temp := some "" }] ++ chunkStates fs "" chunks ++
      [{ cache := some (String.join chunks), temp := none }]

/-- Outcomes of the fallible operations `fetch_json` performs, in source
order: the fresh-cache read, the HTTP status check, creating/writing the
temporary file, the atomic rename, and the read-back of the cache file.
Each field holds the result that operation would produce if reached. -/
structure FetchEnv where
  cacheFresh : Bool
  readCache : Except PyError String
  httpStatus : Int
  openTemp : Except PyError Unit
  renameTemp : Except PyError Unit
  readBack : Except PyError String

/-- The exception behaviour of `fetch_json` (`services.py` lines 74-106):
the body has no `try`/`except` around the cache file operations, so
whatever error an operation produces propagates to the caller unchanged
(`raise_for_status` alone converts a non-success HTTP status into a
transport error). -/
def fetch_json_exc (env : FetchEnv) : Except PyError String :=
  if env.cacheFresh then env.readCache
  else do
    if env.httpStatus ≥ 400 then throw (.transportError env.httpStatus)
    else pure ()
    env.openTemp
    env.renameTemp
    env.readBack

/-- A fetch environment in which the atomic rename of the temporary file
onto the cache path fails with a filesystem permission error. -/
def envRenameFail : FetchEnv :=
  { cacheFresh := false
    readCache := .ok ""
    httpStatus := 200
    openTemp := .ok ()
    renameTemp := .error (.osError "Permission denied")
    readBack := .ok "" }

/-- Python dict lookup over a decoded JSON object's key-value pairs. -/
def jlookup (fields : List (String × JsonVal)) (key : String) : Option JsonVal :=
  match fields.find? (fun kv => kv.1 = key) with
  | some kv => some kv.2
  | none => none

/-- Python `len()` on a decoded JSON value: defined for lists, strings and
objects; `none` where Python raises `TypeError`. -/
def pyLen : JsonVal → Option Int
  | .arr xs => some xs.length
  | .str s => some s.length
  | .obj fs => some fs.length
  | _ => none

/-- The non-fatal warnings `export_json` logs: result-set truncation when
`count >= max_count`, and a count / record-list length mismatch. -/
def exportWarnings (maxCount n lenResults : Int) : List String :=
  (if n ≥ maxCount then
    ["Reached max count for API response. Response may have been trimmed."]
   else []) ++
  (if n ≠ lenResults then ["Mismatched count and length of results."] else [])

/-- The check `data.get("status") == "error"` of `export_json`. -/
def statusIsError (fields : List (String × JsonVal)) : Bool :=
  match jlookup fields "status" with
  | some (.str s) => s = "error"
  | _ => false

/-- The validation logic of `export_json` (`services.py` lines 388-409)
applied to the decoded body: not-a-dict fails with a validation error; an
error envelope fails with an API error carrying the remote message (or the
default); a missing `count` or `results` field fails with a validation
error; otherwise the warnings are computed (a non-integer `count` or an
unsized `results` value makes the respective Python comparison raise
`TypeError`) and the data is returned. -/
def export_validate (maxCount : Int) (data : JsonVal) :
    Except PyError (List String × JsonVal) :=
  match data with
  | .obj fields =>
    if statusIsError fields then
      .error (.apiError ((jlookup fields "message").getD
        (.str "Unknown API error")))
    else if (jlookup fields "count").isNone ||
        (jlookup fields "results").isNone then
      .error (.validationError
        "API response missing required 'count' or 'results' field")
    else
      match jlookup fields "count", jlookup fields "results" with
      | some (.num n), some rv =>
        match pyLen rv with
        | some len => .ok (exportWarnings maxCount n len, data)
        | none => .error (.typeError "object of this type has no len()")
      | some _, some _ =>
        .error (.typeError "comparison not supported between instances")
      | _, _ =>
        .error (.validationError
          "API response missing required 'count' or 'results' field")
  | _ => .error (.validationError "Expected dict response from API")

/-- Whether an outcome is a raised `RepeaterBookCacheError`. -/
def isCacheErr {α : Type} : Except PyError α → Bool
  | .error (.cacheError _) => true
  | _ => false

/-- Whether an outcome is a raised `RepeaterBookValidationError`. -/
def isValidationErr {α : Type} : Except PyError α → Bool
  | .error (.validationError _) => true
  | _ => false

/-- An error envelope that also lacks the `count` and `results` fields. -/
def c4ErrBody : JsonVal := .obj [("status", .str "error")]

/-- A well-formed success envelope: one advertised record, one entry. -/
def c4OkBody : JsonVal := .obj [("count", .num 1), ("results", .arr [.null])]

/-- A successfully decoded and validated export response: the advertised
count and the raw record list (`ExportJSON` restricted to the fields
`download` consumes). -/
structure ExportData where
  count : Int
  results : List RepeaterJSON
  deriving Repr, DecidableEq

/-- The method `export_multi_json` from `services.py`: fan a URL set out to
per-URL `export_json` calls and gather them; `f` stands for the per-URL
call (network and validation included), and `asyncio.gather`'s fail-fast
aggregation is the `Except` short-circuit of `mapM`. -/
def export_multi_json (f : ExportURL → Except PyError ExportData)
    (urls : List ExportURL) : Except PyError (List ExportData) :=
  urls.mapM f

/-- The method `download` from `services.py`: route the query, gather all
endpoint responses, concatenate their record lists in order
(`results.extend(export["results"])`), and normalize each entry with
`json_to_model`. -/
def download (f : ExportURL → Except PyError ExportData) (q : ExportQuery) :
    Except PyError (List Repeater) := do
  let data ← export_multi_json f (urls_export q)
  let results := data.foldl (fun acc e => acc ++ e.results) []
  results.mapM json_to_model

/-- A raw record on which `json_to_model` raises (`BOOL_MAP[""]` is a
`KeyError`). -/
def badPreciseRecord : RepeaterJSON := [("Precise", RVal.s "")]

/-- A per-URL export call that always succeeds, returning one record that
breaks normalization. -/
def constOkExport : ExportURL → Except PyError ExportData :=
  fun _ => .ok ⟨1, [badPreciseRecord]⟩

/-- Modelled from the spec: `filterByRadius` of §4.5 (the module holding it,
`repeaterbook/queries.py`, is exercised by `tests/test_queries.py` but absent
from the sources).  Records surviving the bounding-box pre-filter `inBox`
whose great-circle distance from the radius origin is at most the radius are
kept and sorted ascending by that distance with a stable sort.  The haversine
distance itself is floating-point trigonometry and is abstracted as the
parameter `dist` (distance from the radius origin, in the radius unit). -/
def filter_radius (dist : Repeater → ℚ) (inBox : Repeater → Bool)
    (maxDist : ℚ) (records : List Repeater) : List Repeater :=
  List.insertionSort (fun a b => dist a ≤ dist b)
    (records.filter (fun r => inBox r && decide (dist r ≤ maxDist)))

/-- A canonical repeater record distinguished by its numeric identifier,
for concrete geo-filter runs. -/
def mkTestRepeater (n : Int) : Repeater :=
  { state_id := "06"
    repeater_id := n
    frequency := "146.940"
    input_frequency := "146.340"
    pl_ctcss_uplink := none
    pl_ctcss_tsq_downlink := none
    location_nearest_city := "Test City"
    landmark := none
    region := none
    country := some "United States"
    county := none
    state := some "California"
    latitude := "34.0522"
    longitude := "-118.2437"
    precise := true
    callsign := some "W6TEST"
    use_membership := Use.OPEN
    operational_status := Status.ON_AIR
    ares := none
    races := none
    skywarn := none
    canwarn := none
    allstar_node := none
    echolink_node := none
    irlp_node := none
    wires_node := none
    analog_capable := true
    fm_bandwidth := none
    dmr_capable := false
    dmr_color_code := none
    dmr_id := none
    d_star_capable := false
    nxdn_capable := false
    apco_p_25_capable := false
    p_25_nac := none
    m17_capable := false
    m17_can := none
    tetra_capable := false
    tetra_mcc := none
    tetra_mnc := none
    yaesu_system_fusion_capable := false
    notes := none
    last_update := ⟨2024, 1, 1⟩ }

/-- Whether an embedded computation completed without raising. -/
def exceptOk {α : Type} : Except PyError α → Bool
  | .ok _ => true
  | .error _ => false

/-! Helper lemmas shared by the claim theorems. -/

/-- Binding a successful `Except` computation runs the continuation. -/
theorem except_ok_bind {α β : Type} (a : α) (f : α → Except PyError β) :
    (Except.ok a : Except PyError α) >>= f = f a := rfl

/-- Binding a failed `Except` computation short-circuits. -/
theorem except_error_bind {α β : Type} (e : PyError)
    (f : α → Except PyError β) :
    (Except.error e : Except PyError α) >>= f = Except.error e := rfl

/-- Sequencing after `pure ()` is the identity. -/
theorem except_pure_bind {β : Type} (k : Except PyError β) :
    ((pure () : Except PyError Unit) >>= fun _ => k) = k := rfl

/-- The routed URL set queries North America exactly when the first routing
flag is set. -/
theorem queriesNA_eq (q : ExportQuery) : queriesNA q = (routeFlags q).1 := by
  rcases hf : routeFlags q with ⟨a, b⟩
  cases a <;> cases b <;>
    simp [queriesNA, urls_export, hf, naURL, rowURL]

/-- The routed URL set queries the rest of the world exactly when the second
routing flag is set. -/
theorem queriesROW_eq (q : ExportQuery) : queriesROW q = (routeFlags q).2 := by
  rcases hf : routeFlags q with ⟨a, b⟩
  cases a <;> cases b <;>
    simp [queriesROW, urls_export, hf, naURL, rowURL]

/-- When neither of the first two routing rules fires and countries are
given, the flags are the country-partition flags. -/
theorem routeFlags_countries (q : ExportQuery)
    (h2 : has_row_specific q = false ∨ has_na_specific q = true)
    (h1 : has_na_specific q = false ∨ has_row_specific q = true)
    (h3 : q.countries ≠ []) :
    routeFlags q = (has_na_countries q, has_row_countries q) := by
  unfold routeFlags
  rcases h1 with h1 | h1 <;> rcases h2 with h2 | h2 <;>
    simp_all

/-- The `has_na_countries` flag holds exactly when some requested country
is in the fixed North-America set. -/
theorem has_na_countries_iff (q : ExportQuery) :
    has_na_countries q = true ↔ ∃ c ∈ q.countries, c ∈ NA_COUNTRIES := by
  simp [has_na_countries, List.any_eq_true]

/-- The `has_row_countries` flag holds exactly when some requested country
is outside the fixed North-America set. -/
theorem has_row_countries_iff (q : ExportQuery) :
    has_row_countries q = true ↔ ∃ c ∈ q.countries, c ∉ NA_COUNTRIES := by
  simp [has_row_countries, List.any_eq_true]

/-- The routing flags are never both cleared. -/
theorem flags_not_both_false (q : ExportQuery) :
    routeFlags q ≠ (false, false) := by
  unfold routeFlags
  split
  · simp
  split
  · simp
  split
  · rename_i hc
    intro h
    rcases hq : q.countries with _ | ⟨c, cs⟩
    · simp [hq] at hc
    by_cases hcna : c ∈ NA_COUNTRIES
    · have : has_na_countries q = true := by
        rw [has_na_countries_iff]
        exact ⟨c, by rw [hq]; exact List.mem_cons_self c cs, hcna⟩
      rw [this] at h
      simp at h
    · have : has_row_countries q = true := by
        rw [has_row_countries_iff]
        exact ⟨c, by rw [hq]; exact List.mem_cons_self c cs, hcna⟩
      rw [this] at h
      simp at h
  · simp

/-- After any run of `fetch_json`, the returned content is exactly the
content of the cache artifact it leaves behind. -/
theorem fetch_run_result_eq_cache (now maxAge : Int) (net : String)
    (fs : CacheFS) (m : Int) (c : String)
    (h : (fetch_json_run now maxAge net fs).2.1.cache = some (m, c)) :
    (fetch_json_run now maxAge net fs).1 = c := by
  obtain ⟨oc⟩ := fs
  cases oc with
  | none =>
    simp [fetch_json_run] at h ⊢
    exact h.2
  | some p =>
    rcases p with ⟨m0, c0⟩
    by_cases hfresh : now - m0 < maxAge <;>
      simp [fetch_json_run, hfresh] at h ⊢
    · exact h.2
    · exact h.2

/-- Chunk writes touch only the temporary file, never the cache path. -/
theorem chunkStates_cache (fs : DiskFS) :
    ∀ (cs : List String) (acc : String) (s : DiskFS),
      s ∈ chunkStates fs acc cs → s.cache = fs.cache := by
  intro cs
  induction cs with
  | nil => intro acc s hs; simp [chunkStates] at hs
  | cons c rest ih =>
    intro acc s hs
    simp only [chunkStates, List.mem_cons] at hs
    rcases hs with rfl | hs
    · rfl
    · exact ih (acc ++ c) s hs

/-- If every element maps successfully according to a `Forall₂` witness,
`mapM` returns exactly those results. -/
theorem mapM_ok_of_forall2 {α β : Type} (g : α → Except PyError β) :
    ∀ (l : List α) (ys : List β),
      List.Forall₂ (fun a b => g a = Except.ok b) l ys →
      l.mapM g = Except.ok ys := by
  intro l
  induction l with
  | nil =>
    intro ys h
    cases h
    rfl
  | cons x xs ih =>
    intro ys h
    cases h with
    | cons hx hxs =>
      rw [List.mapM_cons, hx, except_ok_bind, ih _ hxs, except_ok_bind]
      rfl

/-- If some element fails, `mapM` fails with one of the failing elements'
errors (the first in list order). -/
theorem mapM_error_of_exists {α β : Type} (g : α → Except PyError β) :
    ∀ l : List α, (∃ a ∈ l, ∃ e, g a = Except.error e) →
      ∃ a e, a ∈ l ∧ g a = Except.error e ∧ l.mapM g = Except.error e := by
  intro l
  induction l with
  | nil => intro h; simp at h
  | cons x xs ih =>
    intro h
    cases hgx : g x with
    | error e =>
      exact ⟨x, e, List.mem_cons_self x xs, hgx, by
        rw [List.mapM_cons, hgx, except_error_bind]⟩
    | ok b =>
      have hxs : ∃ a ∈ xs, ∃ e, g a = Except.error e := by
        rcases h with ⟨a, ha, e, hge⟩
        rcases List.mem_cons.mp ha with rfl | ha'
        · rw [hgx] at hge; cases hge
        · exact ⟨a, ha', e, hge⟩
      rcases ih hxs with ⟨a, e, ha, hge, hmap⟩
      refine ⟨a, e, List.mem_cons_of_mem x ha, hge, ?_⟩
      rw [List.mapM_cons, hgx, except_ok_bind, hmap, except_error_bind]

/-- Filtering an ordered insertion by an exact key value either prepends the
inserted element (when its key matches) or leaves the filtered list
unchanged: the elements the insertion walks past all have strictly smaller
keys, so insertion never reorders equal-key elements. -/
theorem filter_key_orderedInsert {α : Type} (key : α → ℚ) (qv : ℚ) (x : α) :
    ∀ l : List α,
      (List.orderedInsert (fun a b => key a ≤ key b) x l).filter
          (fun r => decide (key r = qv)) =
        if key x = qv then
          x :: l.filter (fun r => decide (key r = qv))
        else l.filter (fun r => decide (key r = qv)) := by
  intro l
  induction l with
  | nil =>
    by_cases h : key x = qv <;>
      simp [List.orderedInsert, List.filter, h]
  | cons y ys ih =>
    by_cases hxy : key x ≤ key y
    · have hstep : List.orderedInsert (fun a b => key a ≤ key b) x (y :: ys) =
          x :: y :: ys := by
        simp [List.orderedInsert, hxy]
      rw [hstep]
      by_cases h : key x = qv <;>
        simp [List.filter, h]
    · have hstep : List.orderedInsert (fun a b => key a ≤ key b) x (y :: ys) =
          y :: List.orderedInsert (fun a b => key a ≤ key b) x ys := by
        simp [List.orderedInsert, hxy]
      rw [hstep]
      by_cases h : key x = qv
      · have hyq : ¬ key y = qv := by
          intro hy
          exact hxy (le_of_eq (h.trans hy.symm))
        simp [List.filter, hyq, ih, h]
      · by_cases hy : key y = qv <;>
          simp [List.filter, hy, ih, h]

/-- Insertion sort by key is stable: filtering the sorted output by an
exact key value gives the same sublist as filtering the input. -/
theorem filter_key_insertionSort {α : Type} (key : α → ℚ) (qv : ℚ) :
    ∀ l : List α,
      (List.insertionSort (fun a b => key a ≤ key b) l).filter
          (fun r => decide (key r = qv)) =
        l.filter (fun r => decide (key r = qv)) := by
  intro l
  induction l with
  | nil => rfl
  | cons a l ih =>
    rw [List.insertionSort, filter_key_orderedInsert]
    by_cases h : key a = qv <;>
      simp [List.filter, h, ih]

/-! Claim theorems. -/

/-- C1 (counterexample): normalization is not total over every structurally
valid record — a record whose `Precise` field holds the empty string makes
`json_to_model` raise `KeyError` at `BOOL_MAP[j.get("Precise", 0)]`. -/
theorem C1_counterexample :
    json_to_model [("Precise", RVal.s "")] =
      Except.error (PyError.keyError "Precise") := rfl

/-- C1 (amended): `json_to_model` succeeds on every structurally valid
record that avoids the function's failure points (`wellFormedRecord`:
`Rptr ID` numeric or falsy, `Precise` absent or a `BOOL_MAP` key, a
non-empty `Operational Status` recognised, `Region` not an integer, and the
`Decimal`-typed fields parseable), and then applies the documented
defaults: `Precise: 1` yields `precise = true`, `Use: ""` yields `OPEN`,
`Operational Status: ""` yields `UNKNOWN`, and an unparsable `Last Update`
yields the minimum representable date. -/
theorem C1_theorem (j : RepeaterJSON) (hwf : wellFormedRecord j = true) :
    ∃ r, json_to_model j = Except.ok r ∧
      (jget j "Precise" = some (.i 1) → r.precise = true) ∧
      (sGet j "Use" = "" → r.use_membership = Use.OPEN) ∧
      (sGet j "Operational Status" = "" →
        r.operational_status = Status.UNKNOWN) ∧
      (fromisoformat (sGet j "Last Update") = none → r.last_update = dateMin) := by
  unfold wellFormedRecord at hwf
  simp only [Bool.and_eq_true, Bool.or_eq_true, decide_eq_true_eq,
    Option.isSome_iff_exists] at hwf
  obtain ⟨⟨⟨⟨⟨⟨⟨⟨h1, h2⟩, h3⟩, h4⟩, h5⟩, h6⟩, h7⟩, h8⟩, h9⟩ := hwf
  cases hr : rptrIdOf ((jget j "Rptr ID").getD (.i 0)) with
  | error e => rw [hr] at h1; simp at h1
  | ok rid =>
  obtain ⟨pb, hp⟩ := h2
  have hregOk : ∃ rv, regionOf (jget j "Region") = Except.ok rv := by
    cases hreg : jget j "Region" with
    | none => exact ⟨none, rfl⟩
    | some v =>
      cases v with
      | s sv => exact ⟨some sv, rfl⟩
      | null => exact ⟨none, rfl⟩
      | i n => rw [hreg] at h6; simp at h6
  obtain ⟨rv, hreg⟩ := hregOk
  by_cases hos : sGet j "Operational Status" = ""
  · cases hbw : orNone (pyReplace (sGet j "FM Bandwidth") " kHz" "") with
    | none =>
      simp only [json_to_model, hr, hp, hreg, hbw, hos, h4, h5, h7, h8,
        except_ok_bind, except_pure_bind, Bool.not_true, Bool.not_false,
        Bool.false_eq_true, if_false, if_true]
      refine ⟨_, rfl, ?_, ?_, ?_, ?_⟩
      · intro h
        rw [h] at hp
        simp [BOOL_MAP] at hp
        simp [hp]
      · intro h
        simp [h, USE_MAP]
      · intro _
        rfl
      · intro h
        simp [parse_date, h]
    | some bwv =>
      rw [hbw] at h9
      simp at h9
      simp only [json_to_model, hr, hp, hreg, hbw, hos, h4, h5, h7, h8, h9,
        except_ok_bind, except_pure_bind, Bool.not_true, Bool.not_false,
        Bool.false_eq_true, if_false, if_true]
      refine ⟨_, rfl, ?_, ?_, ?_, ?_⟩
      · intro h
        rw [h] at hp
        simp [BOOL_MAP] at hp
        simp [hp]
      · intro h
        simp [h, USE_MAP]
      · intro _
        rfl
      · intro h
        simp [parse_date, h]
  · rcases h3 with h3 | ⟨st, hst⟩
    · exact absurd h3 hos
    cases hbw : orNone (pyReplace (sGet j "FM Bandwidth") " kHz" "") with
    | none =>
      simp only [json_to_model, hr, hp, hreg, hbw, hos, hst, h4, h5, h7, h8,
        except_ok_bind, except_pure_bind, Bool.not_true, Bool.not_false,
        Bool.false_eq_true, if_false, if_true]
      refine ⟨_, rfl, ?_, ?_, ?_, ?_⟩
      · intro h
        rw [h] at hp
        simp [BOOL_MAP] at hp
        simp [hp]
      · intro h
        simp [h, USE_MAP]
      · intro h
        exact h.elim
      · intro h
        simp [parse_date, h]
    | some bwv =>
      rw [hbw] at h9
      simp at h9
      simp only [json_to_model, hr, hp, hreg, hbw, hos, hst, h4, h5, h7, h8,
        h9, except_ok_bind, except_pure_bind, Bool.not_true, Bool.not_false,
        Bool.false_eq_true, if_false, if_true]
      refine ⟨_, rfl, ?_, ?_, ?_, ?_⟩
      · intro h
        rw [h] at hp
        simp [BOOL_MAP] at hp
        simp [hp]
      · intro h
        simp [h, USE_MAP]
      · intro h
        exact h.elim
      · intro h
        simp [parse_date, h]

/-- C1 (witness): the repository test suite's minimal payload is
well-formed and normalizes successfully. -/
theorem C1_witness :
    wellFormedRecord minimalPayload = true ∧
      exceptOk (json_to_model minimalPayload) = true :=
  ⟨rfl, by
    obtain ⟨r, hr, -⟩ := C1_theorem minimalPayload (by rfl)
    rw [hr]
    rfl⟩

/-- C2 (counterexample): a query using an NA-only field (`state_ids`) and
the ROW-only field (`regions`) together with the country Germany does not
query both endpoints — the country-partition branch fires and the
North-America URL is dropped. -/
theorem C2_counterexample :
    has_na_specific c2Query = true ∧ has_row_specific c2Query = true ∧
      queriesNA c2Query = false ∧ urls_export c2Query = [rowURL c2Query] :=
  ⟨rfl, rfl, rfl, rfl⟩

/-- C2 (amended): when a query uses at least one region-A-only field and
also the rest-of-world-only region field, `urls_export` queries both
endpoints when no countries are specified; when countries are specified the
country-partition rule takes over: region-A is queried iff some country is
in the fixed set and rest-of-world iff some country is outside it. -/
theorem C2_theorem (q : ExportQuery) (hna : has_na_specific q = true)
    (hrow : has_row_specific q = true) :
    (q.countries = [] → urls_export q = [naURL q, rowURL q]) ∧
    (q.countries ≠ [] →
      ((queriesNA q = true ↔ ∃ c ∈ q.countries, c ∈ NA_COUNTRIES) ∧
       (queriesROW q = true ↔ ∃ c ∈ q.countries, c ∉ NA_COUNTRIES))) := by
  constructor
  · intro h
    have hf : routeFlags q = (true, true) := by
      unfold routeFlags
      simp [hna, hrow, h]
    simp [urls_export, hf]
  · intro h
    rw [queriesNA_eq, queriesROW_eq,
      routeFlags_countries q (.inr hna) (.inr hrow) h]
    exact ⟨has_na_countries_iff q, has_row_countries_iff q⟩

/-- C2 (witness): with both kinds of endpoint-specific fields and no
countries, both endpoints are queried. -/
theorem C2_witness :
    urls_export { state_ids := ["06"], regions := ["South America"] } =
      [naURL { state_ids := ["06"], regions := ["South America"] },
       rowURL { state_ids := ["06"], regions := ["South America"] }] :=
  (C2_theorem { state_ids := ["06"], regions := ["South America"] }
    rfl rfl).1 rfl

/-- C6: for a query with no region-A-only fields and no region field but a
non-empty set of countries, `urls_export` queries region-A iff some country
is in the fixed set {United States, Canada, Mexico} and rest-of-world iff
some country is outside it; in particular {Germany} routes to rest-of-world
only, {United States} to region-A only, {United States, Germany} to both,
and the empty query routes to both endpoints. -/
theorem C6_theorem :
    (∀ q : ExportQuery, has_na_specific q = false →
      has_row_specific q = false → q.countries ≠ [] →
      ((queriesNA q = true ↔ ∃ c ∈ q.countries, c ∈ NA_COUNTRIES) ∧
       (queriesROW q = true ↔ ∃ c ∈ q.countries, c ∉ NA_COUNTRIES))) ∧
    urls_export { countries := ["Germany"] } =
      [rowURL { countries := ["Germany"] }] ∧
    urls_export { countries := ["United States"] } =
      [naURL { countries := ["United States"] }] ∧
    urls_export { countries := ["United States", "Germany"] } =
      [naURL { countries := ["United States", "Germany"] },
       rowURL { countries := ["United States", "Germany"] }] ∧
    urls_export ({} : ExportQuery) = [naURL {}, rowURL {}] := by
  refine ⟨?_, rfl, rfl, rfl, rfl⟩
  intro q h1 h2 h3
  rw [queriesNA_eq, queriesROW_eq,
    routeFlags_countries q (.inl h2) (.inl h1) h3]
  exact ⟨has_na_countries_iff q, has_row_countries_iff q⟩

/-- C6 (witness): the query for Germany alone queries the rest-of-world
endpoint. -/
theorem C6_witness : queriesROW { countries := ["Germany"] } = true :=
  ((C6_theorem.1 { countries := ["Germany"] } rfl rfl (by decide)).2).mpr
    ⟨"Germany", by decide, by decide⟩

/-- C10: `urls_export` always returns a non-empty set of one or two URLs;
no query routes to zero endpoints. -/
theorem C10_theorem (q : ExportQuery) :
    urls_export q ≠ [] ∧
      ((urls_export q).length = 1 ∨ (urls_export q).length = 2) := by
  rcases hf : routeFlags q with ⟨a, b⟩
  have hnb := flags_not_both_false q
  rw [hf] at hnb
  cases a <;> cases b <;> simp [urls_export, hf] at hnb ⊢

/-- C3: cache idempotence and freshness of `fetch_json`.  A second fetch
issued while the cached artifact's age is below `max_cache_age` performs no
network request and returns the first call's result unchanged; a fetch
whose cached artifact has aged at least `max_cache_age` (in particular any
fetch with `max_cache_age = 0` against a past-dated artifact) performs a
network request and installs the newly fetched content as the cache
artifact. -/
theorem C3_theorem :
    (∀ (t1 t2 maxAge : Int) (n1 n2 : String) (fs : CacheFS)
        (m : Int) (c : String),
      (fetch_json_run t1 maxAge n1 fs).2.1.cache = some (m, c) →
      t2 - m < maxAge →
      fetch_json_run t2 maxAge n2 (fetch_json_run t1 maxAge n1 fs).2.1 =
        ((fetch_json_run t1 maxAge n1 fs).1,
         (fetch_json_run t1 maxAge n1 fs).2.1, false)) ∧
    (∀ (t maxAge : Int) (net : String) (fs : CacheFS),
      (∀ m c, fs.cache = some (m, c) → maxAge ≤ t - m) →
      fetch_json_run t maxAge net fs = (net, ⟨some (t, net)⟩, true)) ∧
    (∀ (t : Int) (net : String) (fs : CacheFS) (m : Int) (c : String),
      fs.cache = some (m, c) → m ≤ t →
      fetch_json_run t 0 net fs = (net, ⟨some (t, net)⟩, true)) := by
  refine ⟨?_, ?_, ?_⟩
  · intro t1 t2 maxAge n1 n2 fs m c h hfresh
    have hres := fetch_run_result_eq_cache t1 maxAge n1 fs m c h
    have hfs1 : (fetch_json_run t1 maxAge n1 fs).2.1 =
        (⟨some (m, c)⟩ : CacheFS) := by
      have heta : (⟨(fetch_json_run t1 maxAge n1 fs).2.1.cache⟩ : CacheFS) =
          (fetch_json_run t1 maxAge n1 fs).2.1 := rfl
      rw [← heta, h]
    rw [hfs1, hres]
    simp [fetch_json_run, hfresh]
  · intro t maxAge net fs h
    obtain ⟨oc⟩ := fs
    cases oc with
    | none => rfl
    | some p =>
      rcases p with ⟨m, c⟩
      have := h m c rfl
      simp [fetch_json_run]
      omega
  · intro t net fs m c h hmt
    obtain ⟨oc⟩ := fs
    simp at h
    rw [h]
    simp [fetch_json_run]
    omega

/-- C3 (witness): a concrete miss-then-hit run — the second call within the
age bound returns the first call's content with no network request. -/
theorem C3_witness :
    fetch_json_run 5 10 "B" (fetch_json_run 0 10 "A" ⟨none⟩).2.1 =
      ((fetch_json_run 0 10 "A" ⟨none⟩).1,
       (fetch_json_run 0 10 "A" ⟨none⟩).2.1, false) :=
  C3_theorem.1 0 5 10 "A" "B" ⟨none⟩ 0 "A" rfl (by decide)

/-- C7: during and after a fetch, the cache-file path always holds either
the prior complete artifact or the fully written new body: the streamed
chunks are written only to the temporary file, and the single atomic rename
installs the complete body. -/
theorem C7_theorem (fresh : Bool) (chunks : List String) (fs : DiskFS)
    (s : DiskFS) (hs : s ∈ fetch_json_trace fresh chunks fs) :
    s.cache = fs.cache ∨ s.cache = some (String.join chunks) := by
  unfold fetch_json_trace at hs
  by_cases hfresh : fresh = true
  · rw [if_pos hfresh] at hs
    simp at hs
    left
    rw [hs]
  · rw [if_neg hfresh] at hs
    simp at hs
    rcases hs with rfl | rfl | hs | rfl
    · left; rfl
    · left; rfl
    · left; exact chunkStates_cache fs chunks "" s hs
    · right; rfl

/-- C7 (witness): a mid-stream state of a concrete fetch still shows the
prior cache artifact. -/
theorem C7_witness :
    (⟨some "old", some "ab"⟩ : DiskFS).cache =
        (⟨some "old", none⟩ : DiskFS).cache ∨
      (⟨some "old", some "ab"⟩ : DiskFS).cache =
        some (String.join ["ab", "c"]) :=
  C7_theorem false ["ab", "c"] ⟨some "old", none⟩ ⟨some "old", some "ab"⟩
    (by decide)

/-- C8 (code bug): when the atomic rename of the temporary artifact fails,
`fetch_json` propagates the raw `OSError` — it does not surface the
failure as the library's `RepeaterBookCacheError` kind, although that
exception's own documentation says it is raised when cache writes fail. -/
theorem C8_theorem :
    fetch_json_exc envRenameFail =
        Except.error (PyError.osError "Permission denied") ∧
      isCacheErr (fetch_json_exc envRenameFail) = false :=
  ⟨rfl, rfl⟩

/-- C4 (counterexample): a decoded body that carries the error indicator
while lacking both the `count` and `results` fields raises an API error,
not the validation error the claim's "if and only if" requires. -/
theorem C4_counterexample :
    jlookup [("status", JsonVal.str "error")] "count" = none ∧
      jlookup [("status", JsonVal.str "error")] "results" = none ∧
      export_validate 3500 c4ErrBody =
        Except.error (PyError.apiError (JsonVal.str "Unknown API error")) ∧
      isValidationErr (export_validate 3500 c4ErrBody) = false :=
  ⟨rfl, rfl, rfl, rfl⟩

/-- C4 (amended): `export_json` raises a validation error iff the decoded
body is not a dict, or it is a dict without the error indicator that lacks
`count` or `results`; a dict carrying the error indicator raises an API
error with the remote message (default if absent) even when `count` or
`results` are also missing; and with an integer `count` and a sized
`results` value the call returns the response, emitting only the non-fatal
truncation and mismatch warnings. -/
theorem C4_theorem (mc : Int) (d : JsonVal) :
    (isValidationErr (export_validate mc d) = true ↔
      ((∀ fs, d ≠ JsonVal.obj fs) ∨
       (∃ fs, d = JsonVal.obj fs ∧ statusIsError fs = false ∧
         ((jlookup fs "count").isNone ∨ (jlookup fs "results").isNone)))) ∧
    (∀ fs, d = JsonVal.obj fs → statusIsError fs = true →
      export_validate mc d =
        Except.error (.apiError ((jlookup fs "message").getD
          (.str "Unknown API error")))) ∧
    (∀ fs n rv len, d = JsonVal.obj fs → statusIsError fs = false →
      jlookup fs "count" = some (.num n) →
      jlookup fs "results" = some rv →
      pyLen rv = some len →
      export_validate mc d = Except.ok (exportWarnings mc n len, d)) := by
  refine ⟨?_, ?_, ?_⟩
  · cases d with
    | obj fields =>
      by_cases hstat : statusIsError fields
      · simp [export_validate, hstat, isValidationErr]
      · simp only [export_validate, hstat, if_false, Bool.false_eq_true]
        by_cases hcnt : (jlookup fields "count").isNone ∨
            (jlookup fields "results").isNone
        · have hb : ((jlookup fields "count").isNone ||
              (jlookup fields "results").isNone) = true := by
            rcases hcnt with h | h <;> simp [h]
          simp [hb, isValidationErr, hstat]
          simpa using hcnt
        · have hb : ((jlookup fields "count").isNone ||
              (jlookup fields "results").isNone) = false := by
            push_neg at hcnt
            simp [hcnt.1, hcnt.2]
          rw [hb]
          simp only [Bool.false_eq_true, if_false]
          push_neg at hcnt
          rcases hc : jlookup fields "count" with - | cv
          · simp [hc] at hcnt
          rcases hr : jlookup fields "results" with - | rv
          · simp [hr] at hcnt
          constructor
          · intro hLHS
            exfalso
            cases cv with
            | num n =>
              rcases hlen : pyLen rv with - | len <;>
                simp [hc, hr, hlen, isValidationErr] at hLHS
            | obj o => simp [hc, hr, isValidationErr] at hLHS
            | arr a => simp [hc, hr, isValidationErr] at hLHS
            | str s => simp [hc, hr, isValidationErr] at hLHS
            | null => simp [hc, hr, isValidationErr] at hLHS
          · intro hRHS
            rcases hRHS with h | ⟨fs, hfs, -, hmiss⟩
            · exact absurd rfl (h fields)
            · cases hfs
              rcases hmiss with h | h
              · rw [hc] at h; simp at h
              · rw [hr] at h; simp at h
    | arr xs => simp [export_validate, isValidationErr]
    | str s => simp [export_validate, isValidationErr]
    | num n => simp [export_validate, isValidationErr]
    | null => simp [export_validate, isValidationErr]
  · intro fs heq hstat
    subst heq
    simp [export_validate, hstat]
  · intro fs n rv len heq hstat hc hr hlen
    subst heq
    have hb : ((jlookup fs "count").isNone ||
        (jlookup fs "results").isNone) = false := by
      simp [hc, hr]
    simp [export_validate, hstat, hb, hc, hr, hlen]

/-- C4 (witness): a well-formed envelope is returned with its computed
warnings (none here). -/
theorem C4_witness :
    export_validate 3500 c4OkBody =
      Except.ok (exportWarnings 3500 1 1, c4OkBody) :=
  (C4_theorem 3500 c4OkBody).2.2 [("count", .num 1), ("results", .arr [.null])]
    1 (.arr [.null]) 1 rfl rfl rfl rfl rfl

/-- C5 (counterexample): with every per-URL export call succeeding, the
download still fails when a returned record breaks normalization, so "when
every call succeeds, download returns the concatenation" is not
unconditional. -/
theorem C5_counterexample :
    download constOkExport {} = Except.error (PyError.keyError "Precise") :=
  rfl

/-- C5 (amended): if any per-URL export call fails, `download` fails with
one of the failing calls' errors (the first in URL order) and returns no
partial results; if every call succeeds and every concatenated entry
normalizes, `download` returns the concatenation of all record lists with
each entry normalized. -/
theorem C5_theorem (f : ExportURL → Except PyError ExportData)
    (q : ExportQuery) :
    ((∃ u ∈ urls_export q, ∃ e, f u = Except.error e) →
      ∃ u e, u ∈ urls_export q ∧ f u = Except.error e ∧
        download f q = Except.error e) ∧
    (∀ ds rs, List.Forall₂ (fun u d => f u = Except.ok d) (urls_export q) ds →
      List.Forall₂ (fun rec r => json_to_model rec = Except.ok r)
        (ds.foldl (fun acc e => acc ++ e.results) []) rs →
      download f q = Except.ok rs) := by
  constructor
  · intro h
    rcases mapM_error_of_exists f (urls_export q) h with ⟨u, e, hu, hgu, hmap⟩
    refine ⟨u, e, hu, hgu, ?_⟩
    unfold download export_multi_json
    rw [hmap, except_error_bind]
  · intro ds rs h1 h2
    have hm1 := mapM_ok_of_forall2 f (urls_export q) ds h1
    have hm2 := mapM_ok_of_forall2 json_to_model
      (ds.foldl (fun acc e => acc ++ e.results) []) rs h2
    unfold download export_multi_json
    rw [hm1, except_ok_bind, hm2]

/-- C5 (witness): two successful empty endpoint responses download to the
empty record list. -/
theorem C5_witness :
    download (fun _ => Except.ok ⟨0, []⟩) {} = Except.ok [] :=
  (C5_theorem (fun _ => Except.ok ⟨0, []⟩) {}).2 [⟨0, []⟩, ⟨0, []⟩] []
    (List.Forall₂.cons rfl (List.Forall₂.cons rfl List.Forall₂.nil))
    List.Forall₂.nil

/-- C9 (spec-modelled): the radius filter returns exactly the records whose
great-circle distance from the origin is at most the radius (provided the
bounding-box pre-filter is conservative, i.e. keeps every in-radius
record), sorted ascending by that distance with ties in input order, and
returns the empty list when the radius encloses no record. -/
theorem C9_theorem (dist : Repeater → ℚ) (inBox : Repeater → Bool)
    (maxDist : ℚ) (records : List Repeater)
    (hbox : ∀ r, dist r ≤ maxDist → inBox r = true) :
    (filter_radius dist inBox maxDist records).Perm
        (records.filter (fun r => decide (dist r ≤ maxDist))) ∧
    List.Sorted (fun a b => dist a ≤ dist b)
        (filter_radius dist inBox maxDist records) ∧
    (∀ qv : ℚ,
      (filter_radius dist inBox maxDist records).filter
          (fun r => decide (dist r = qv)) =
        (records.filter (fun r => decide (dist r ≤ maxDist))).filter
          (fun r => decide (dist r = qv))) ∧
    ((∀ r ∈ records, ¬ dist r ≤ maxDist) →
      filter_radius dist inBox maxDist records = []) := by
  have hfe : records.filter (fun r => inBox r && decide (dist r ≤ maxDist)) =
      records.filter (fun r => decide (dist r ≤ maxDist)) := by
    apply List.filter_congr
    intro r hr
    by_cases h : dist r ≤ maxDist
    · simp [h, hbox r h]
    · simp [h]
  refine ⟨?_, ?_, ?_, ?_⟩
  · rw [filter_radius, hfe]
    exact List.perm_insertionSort _ _
  · haveI : IsTotal Repeater (fun a b => dist a ≤ dist b) :=
      ⟨fun a b => le_total _ _⟩
    haveI : IsTrans Repeater (fun a b => dist a ≤ dist b) :=
      ⟨fun a b c hab hbc => le_trans hab hbc⟩
    exact List.sorted_insertionSort _ _
  · intro qv
    rw [filter_radius, filter_key_insertionSort, hfe]
  · intro hall
    have hnil : records.filter
        (fun r => inBox r && decide (dist r ≤ maxDist)) = [] := by
      rw [hfe, List.filter_eq_nil_iff]
      intro a ha
      simp [hall a ha]
    rw [filter_radius, hnil]
    rfl

/-- C9 (witness): a concrete three-record run with identifiers as
distances: the radius-2 filter keeps the two nearest records, sorted. -/
theorem C9_witness :
    (filter_radius (fun r => (r.repeater_id : ℚ)) (fun _ => true) 2
        [mkTestRepeater 3, mkTestRepeater 1, mkTestRepeater 2]).Perm
      ([mkTestRepeater 3, mkTestRepeater 1, mkTestRepeater 2].filter
        (fun r => decide ((r.repeater_id : ℚ) ≤ 2))) ∧
    List.Sorted (fun a b => ((a.repeater_id : ℚ) ≤ (b.repeater_id : ℚ)))
      (filter_radius (fun r => (r.repeater_id : ℚ)) (fun _ => true) 2
        [mkTestRepeater 3, mkTestRepeater 1, mkTestRepeater 2]) :=
  ⟨(C9_theorem (fun r => (r.repeater_id : ℚ)) (fun _ => true) 2
      [mkTestRepeater 3, mkTestRepeater 1, mkTestRepeater 2]
      (fun _ _ => rfl)).1,
   (C9_theorem (fun r => (r.repeater_id : ℚ)) (fun _ => true) 2
      [mkTestRepeater 3, mkTestRepeater 1, mkTestRepeater 2]
      (fun _ _ => rfl)).2.1⟩
